import Mathlib

/-!
Shallow embedding of `src/EAD_EnergyAwareDrone.cxx` (energy-aware drone
path computation) over the real numbers, together with proofs of the
specification's claims about it.

The C++ `double` arithmetic is modelled over `ℝ`.  The orchestrator's
distance-summation loop in `main` uses a `size_t` loop bound
`waypoints.size() - 1`; the `size_t` wraparound subtraction is modelled
exactly (`sizetSub1`), and an out-of-bounds vector access (undefined
behavior in C++) is modelled as `none`.
-/

/-- `struct Waypoint { double x, y, z; }` from the source. -/
structure Waypoint where
  x : ℝ
  y : ℝ
  z : ℝ

/-- `double distance(const Waypoint&, const Waypoint&)` from the source:
Euclidean distance `sqrt((x2-x1)^2 + (y2-y1)^2 + (z2-z1)^2)`. -/
noncomputable def distance (wp1 wp2 : Waypoint) : ℝ :=
  Real.sqrt ((wp2.x - wp1.x) ^ 2 + (wp2.y - wp1.y) ^ 2 + (wp2.z - wp1.z) ^ 2)

/-- `double energyConsumption(double, double, double, double, double)` from
the source: `a * v^2 + b * h + c`. -/
noncomputable def energyConsumption (velocity altitude a b c : ℝ) : ℝ :=
  a * velocity ^ 2 + b * altitude + c

/-- `std::tuple<double,double> findOptimalSpeedAndAltitude(double a, double b)`
from the source: starts from velocity `0`, altitude `100`, and when `a != 0`
replaces the velocity by `sqrt(b / (2 * a))`. -/
noncomputable def findOptimalSpeedAndAltitude (a b : ℝ) : ℝ × ℝ :=
  if a ≠ 0 then (Real.sqrt (b / (2 * a)), 100) else (0, 100)

/-- `size_t` subtraction by one, as in the loop bound `waypoints.size() - 1`
of `main`: for `n = 0` it wraps around to `2^64 - 1`. -/
def sizetSub1 (n : ℕ) : ℕ :=
  (n + 2 ^ 64 - 1) % 2 ^ 64

/-- The body of `main`'s accumulation loop
`for (size_t i = 0; i < waypoints.size() - 1; ++i)
   totalDistance += distance(waypoints[i], waypoints[i + 1]);`
with current index `i`, remaining iteration count `fuel`, and accumulator
`acc`.  An out-of-bounds access `waypoints[i]` (undefined behavior in C++)
is modelled as `none`. -/
noncomputable def loopGo : List Waypoint → ℕ → ℕ → ℝ → Option ℝ
  | _, _, 0, acc => some acc
  | ws, i, fuel + 1, acc =>
    match ws[i]?, ws[i + 1]? with
    | some p, some q => loopGo ws (i + 1) fuel (acc + distance p q)
    | _, _ => none

/-- `main`'s total-distance computation over an arbitrary waypoint sequence:
the loop runs for `size() - 1` iterations where the subtraction is `size_t`
subtraction. -/
noncomputable def totalDistance (ws : List Waypoint) : Option ℝ :=
  loopGo ws 0 (sizetSub1 ws.length) 0

/-- Coefficient `a = 0.1` from `main`. -/
noncomputable def refA : ℝ := 0.1

/-- Coefficient `b = 0.05` from `main`. -/
noncomputable def refB : ℝ := 0.05

/-- Coefficient `c = 10.0` from `main`. -/
noncomputable def refC : ℝ := 10

/-- The waypoint vector from `main`:
`{0,0,100}, {100,100,150}, {200,50,120}, {300,200,150}`. -/
noncomputable def refWaypoints : List Waypoint :=
  [⟨0, 0, 100⟩, ⟨100, 100, 150⟩, ⟨200, 50, 120⟩, ⟨300, 200, 150⟩]

/-- `main`'s `totalDistance` value. -/
noncomputable def mainTotalDistance : Option ℝ :=
  totalDistance refWaypoints

/-- `main`'s `optimalVelocity` value. -/
noncomputable def mainOptimalVelocity : ℝ :=
  (findOptimalSpeedAndAltitude refA refB).1

/-- `main`'s `optimalAltitude` value. -/
noncomputable def mainOptimalAltitude : ℝ :=
  (findOptimalSpeedAndAltitude refA refB).2

/-- `main`'s `totalEnergy = energyConsumption(v*, h*, a, b, c) * totalDistance`. -/
noncomputable def mainTotalEnergy : Option ℝ :=
  Option.map
    (fun d =>
      energyConsumption mainOptimalVelocity mainOptimalAltitude refA refB refC * d)
    mainTotalDistance

/-- Claim C2: for all coefficients `a > 0` and `b ≥ 0`,
`findOptimalSpeedAndAltitude a b` returns exactly `(sqrt (b / (2*a)), 100)`. -/
theorem findOptimalSpeedAndAltitude_closed_form (a b : ℝ) (ha : 0 < a) (_hb : 0 ≤ b) :
    findOptimalSpeedAndAltitude a b = (Real.sqrt (b / (2 * a)), 100) := by
  unfold findOptimalSpeedAndAltitude
  rw [if_pos (ne_of_gt ha)]

/-- Witness for C2: the closed form evaluated at `a = 2`, `b = 8`, where
`sqrt (8 / (2*2)) = sqrt 2`. -/
theorem findOptimalSpeedAndAltitude_closed_form_witness :
    (0 : ℝ) < 2 ∧ (0 : ℝ) ≤ 8 ∧
      findOptimalSpeedAndAltitude 2 8 = (Real.sqrt 2, 100) := by
  refine ⟨by norm_num, by norm_num, ?_⟩
  have h := findOptimalSpeedAndAltitude_closed_form 2 8 (by norm_num) (by norm_num)
  rw [h]
  norm_num

/-- Claim C4: for every `b`, calling the optimizer with `a = 0` takes the
guarded branch and returns velocity `0` (and altitude `100`): the division
`b / (2*a)` is never reached. -/
theorem findOptimalSpeedAndAltitude_zero_a (b : ℝ) :
    findOptimalSpeedAndAltitude 0 b = (0, 100) := by
  unfold findOptimalSpeedAndAltitude
  simp

/-- Claim C6: for fixed velocity and coefficients, the energy model is linear
in altitude: `E(v, h2) - E(v, h1) = b * (h2 - h1)`. -/
theorem energyConsumption_linear_in_altitude (v h1 h2 a b c : ℝ) :
    energyConsumption v h2 a b c - energyConsumption v h1 a b c = b * (h2 - h1) := by
  unfold energyConsumption
  ring

/-- Claim C7: the distance function is symmetric in its two waypoints. -/
theorem distance_symm (p q : Waypoint) : distance p q = distance q p := by
  unfold distance
  congr 1
  ring

/-- Claim C10: the energy model is even in velocity, since velocity enters
only through its square: `E(-v, h) = E(v, h)`. -/
theorem energyConsumption_even_in_velocity (v h a b c : ℝ) :
    energyConsumption (-v) h a b c = energyConsumption v h a b c := by
  unfold energyConsumption
  ring

/-- Helper: a nonnegative sum of three squares is zero only when each
difference is zero. -/
theorem sq_sum_three_eq_zero {u v w : ℝ}
    (h : u ^ 2 + v ^ 2 + w ^ 2 = 0) : u = 0 ∧ v = 0 ∧ w = 0 := by
  have hu : u ^ 2 = 0 := by nlinarith [sq_nonneg u, sq_nonneg v, sq_nonneg w]
  have hv : v ^ 2 = 0 := by nlinarith [sq_nonneg u, sq_nonneg v, sq_nonneg w]
  have hw : w ^ 2 = 0 := by nlinarith [sq_nonneg u, sq_nonneg v, sq_nonneg w]
  exact ⟨pow_eq_zero_iff two_ne_zero |>.mp hu,
         pow_eq_zero_iff two_ne_zero |>.mp hv,
         pow_eq_zero_iff two_ne_zero |>.mp hw⟩

/-- Claim C8: `distance p q = 0` exactly when the two waypoints have equal
coordinates; in particular `distance p p = 0`. -/
theorem distance_eq_zero_iff (p q : Waypoint) :
    (distance p q = 0 ↔ p = q) ∧ distance p p = 0 := by
  have key : ∀ r s : Waypoint, distance r s = 0 ↔ r = s := by
    intro r s
    unfold distance
    rw [Real.sqrt_eq_zero (by positivity)]
    constructor
    · intro h
      obtain ⟨hx, hy, hz⟩ := sq_sum_three_eq_zero h
      obtain ⟨rx, ry, rz⟩ := r
      obtain ⟨sx, sy, sz⟩ := s
      simp only [Waypoint.mk.injEq]
      refine ⟨?_, ?_, ?_⟩ <;> [skip; skip; skip] <;>
        first
          | exact (sub_eq_zero.mp hx).symm
          | exact (sub_eq_zero.mp hy).symm
          | exact (sub_eq_zero.mp hz).symm
    · intro h
      subst h
      ring
  exact ⟨key p q, by rw [(key p p)]⟩

/-- The embedding of a waypoint into `EuclideanSpace ℝ (Fin 3)`, used to
inherit the metric-space triangle inequality. -/
noncomputable def toE (p : Waypoint) : EuclideanSpace ℝ (Fin 3) :=
  ![p.x, p.y, p.z]

/-- Helper: the source's `distance` agrees with the Euclidean metric on
`EuclideanSpace ℝ (Fin 3)`. -/
theorem distance_eq_dist (p q : Waypoint) : distance p q = dist (toE p) (toE q) := by
  unfold distance toE
  rw [EuclideanSpace.dist_eq, Fin.sum_univ_three]
  simp only [Matrix.cons_val_zero, Matrix.cons_val_one, Matrix.head_cons,
    Matrix.cons_val_two, Matrix.tail_cons, Real.dist_eq, sq_abs]
  congr 1
  ring

/-- Claim C9: the distance function satisfies the triangle inequality. -/
theorem distance_triangle (p q r : Waypoint) :
    distance p r ≤ distance p q + distance q r := by
  rw [distance_eq_dist, distance_eq_dist, distance_eq_dist]
  exact dist_triangle (toE p) (toE q) (toE r)

/-- Claim C3: on the empty waypoint sequence the loop bound
`size() - 1` wraps around to `2^64 - 1` in `size_t` arithmetic, so the loop
body runs and reads `waypoints[0]` out of bounds (modelled `none`); on a
singleton sequence the loop bound is `0`, the loop body never runs, and the
total distance is `0` as the specification states. -/
theorem totalDistance_boundary :
    totalDistance ([] : List Waypoint) = none ∧
    ∀ p : Waypoint, totalDistance [p] = some 0 := by
  constructor
  · show loopGo [] 0 (sizetSub1 0) 0 = none
    rw [show sizetSub1 0 = (2 ^ 64 - 2) + 1 from by norm_num [sizetSub1]]
    simp [loopGo]
  · intro p
    show loopGo [p] 0 (sizetSub1 1) 0 = some 0
    rw [show sizetSub1 1 = 0 from by norm_num [sizetSub1]]
    simp [loopGo]

/-- Helper: `sqrt 13400` (the second segment length) lies strictly between
`115.75` and `115.76`. -/
theorem sqrt_13400_bounds :
    (115.75 : ℝ) < Real.sqrt 13400 ∧ Real.sqrt 13400 < 115.76 :=
  ⟨(Real.lt_sqrt (by norm_num)).mpr (by norm_num),
   (Real.sqrt_lt' (by norm_num)).mpr (by norm_num)⟩

/-- Helper: `sqrt 33400` (the third segment length) lies strictly between
`182.75` and `182.76`. -/
theorem sqrt_33400_bounds :
    (182.75 : ℝ) < Real.sqrt 33400 ∧ Real.sqrt 33400 < 182.76 :=
  ⟨(Real.lt_sqrt (by norm_num)).mpr (by norm_num),
   (Real.sqrt_lt' (by norm_num)).mpr (by norm_num)⟩

/-- Helper: the total distance over the reference waypoints is exactly
`sqrt 22500 + sqrt 13400 + sqrt 33400 = 150 + sqrt 13400 + sqrt 33400`. -/
theorem mainTotalDistance_eq :
    mainTotalDistance = some (150 + Real.sqrt 13400 + Real.sqrt 33400) := by
  unfold mainTotalDistance totalDistance
  rw [show sizetSub1 refWaypoints.length = 3 from by
    norm_num [sizetSub1, refWaypoints]]
  simp only [refWaypoints, loopGo, List.getElem?_cons_zero, List.getElem?_cons_succ,
    Nat.reduceAdd, List.getElem?_nil, Option.some.injEq]
  unfold distance
  norm_num
  rw [show (22500 : ℝ) = 150 ^ 2 from by norm_num,
    Real.sqrt_sq (by norm_num : (0 : ℝ) ≤ 150)]

/-- Helper: `main`'s optimal velocity is `sqrt (0.05 / 0.2) = 0.5`. -/
theorem mainOptimalVelocity_eq : mainOptimalVelocity = 0.5 := by
  unfold mainOptimalVelocity findOptimalSpeedAndAltitude refA refB
  rw [if_pos (by norm_num : (0.1 : ℝ) ≠ 0)]
  show Real.sqrt (0.05 / (2 * 0.1)) = 0.5
  rw [show (0.05 : ℝ) / (2 * 0.1) = 0.5 ^ 2 from by norm_num]
  exact Real.sqrt_sq (by norm_num)

/-- Helper: `main`'s optimal altitude is the fixed constant `100`. -/
theorem mainOptimalAltitude_eq : mainOptimalAltitude = 100 := by
  unfold mainOptimalAltitude findOptimalSpeedAndAltitude refA refB
  rw [if_pos (by norm_num : (0.1 : ℝ) ≠ 0)]

/-- Helper: `main`'s energy-per-unit-distance is
`0.1 * 0.5^2 + 0.05 * 100 + 10 = 15.025`. -/
theorem mainEnergyPerUnit_eq :
    energyConsumption mainOptimalVelocity mainOptimalAltitude refA refB refC
      = 15.025 := by
  rw [mainOptimalVelocity_eq, mainOptimalAltitude_eq]
  unfold energyConsumption refA refB refC
  norm_num

/-- Claim C1, counterexample: the total distance over the reference waypoints
is `150 + sqrt 13400 + sqrt 33400`, which exceeds the claimed value `395.21`
by more than `53`, so "total distance approximately 395.21" is false. -/
theorem mainTotalDistance_not_approx_395 :
    mainTotalDistance = some (150 + Real.sqrt 13400 + Real.sqrt 33400) ∧
    (395.21 : ℝ) + 53 < 150 + Real.sqrt 13400 + Real.sqrt 33400 := by
  refine ⟨mainTotalDistance_eq, ?_⟩
  have h1 := sqrt_13400_bounds.1
  have h2 := sqrt_33400_bounds.1
  linarith

/-- Claim C1, amended: for the reference scenario, the total distance is
exactly `150 + sqrt 13400 + sqrt 33400` (approximately `448.51`, strictly
between `448.5` and `448.52`), the optimal velocity is exactly `0.5`, the
optimal altitude is exactly `100`, the energy-per-unit-distance is exactly
`15.025`, and the total energy is `15.025` times the total distance. -/
theorem main_reference_scenario :
    mainTotalDistance = some (150 + Real.sqrt 13400 + Real.sqrt 33400) ∧
    (448.5 : ℝ) < 150 + Real.sqrt 13400 + Real.sqrt 33400 ∧
    (150 + Real.sqrt 13400 + Real.sqrt 33400 : ℝ) < 448.52 ∧
    mainOptimalVelocity = 0.5 ∧
    mainOptimalAltitude = 100 ∧
    energyConsumption mainOptimalVelocity mainOptimalAltitude refA refB refC
      = 15.025 ∧
    mainTotalEnergy = some (15.025 * (150 + Real.sqrt 13400 + Real.sqrt 33400)) := by
  obtain ⟨h1l, h1u⟩ := sqrt_13400_bounds
  obtain ⟨h2l, h2u⟩ := sqrt_33400_bounds
  refine ⟨mainTotalDistance_eq, by linarith, by linarith,
    mainOptimalVelocity_eq, mainOptimalAltitude_eq, mainEnergyPerUnit_eq, ?_⟩
  unfold mainTotalEnergy
  rw [mainTotalDistance_eq]
  simp only [Option.map_some']
  rw [mainEnergyPerUnit_eq]
